import Mathlib

/-!
Shallow embedding of the serial ingestion/parsing engine in
`device_monitor/DeviceMonitorFunctions.py` (the CORE of the spec): the
line framer and push logic of `listen_port`, its bounded-retry
reconnection loop, the continuous-scan and settings branches of
`parse_serial_data`, the poll step of `wait_for_reboot`, and
`open_port`.

Python strings are modelled as Lean `String`; every Python string
operation used by the code (membership, split, split-at-first-equals, slicing,
`lstrip`, tab removal) is reimplemented below by structural
recursion on the character list so that all definitions evaluate in the
kernel.  Mutable module-level state (`serial_data`, `current_status`,
`device_sleep`, ...) becomes an explicit state record threaded through
the functions; the cooperative `data_safe` / `serial_safe` flags are
modelled as the sequential case in which the flag is observed set, which
is the situation every claim describes.  Real time (`time.sleep`,
`time.time`) is modelled by counting waits or by an explicit elapsed
parameter.
-/

set_option maxRecDepth 1000000

/-- `listStartsWith pat s` : `pat` is a prefix of `s` (character lists). -/
def listStartsWith : List Char → List Char → Bool
  | [], _ => true
  | _ :: _, [] => false
  | a :: as, b :: bs => if a = b then listStartsWith as bs else false

/-- `listContainsSub pat s` : `pat` occurs as a contiguous substring of `s`. -/
def listContainsSub (pat : List Char) : List Char → Bool
  | [] => listStartsWith pat []
  | c :: rest => if listStartsWith pat (c :: rest) then true else listContainsSub pat rest

/-- Python `pat in s` (substring containment; all patterns in this code are nonempty). -/
def strContains (s pat : String) : Bool := listContainsSub pat.data s.data

/-- Python `c in s` for a single character `c`. -/
def strContainsChar (s : String) (c : Char) : Bool := s.data.contains c

/-- Helper for `pySplit`: splits on every leftmost occurrence of `sep`;
`acc` is the current segment reversed, `fuel ≥ length of the remaining input`
so the recursion is structural and the fuel case is never reached. -/
def splitAllAux (sep : List Char) : Nat → List Char → List Char → List (List Char)
  | 0, acc, _ => [acc.reverse]
  | _ + 1, acc, [] => [acc.reverse]
  | fuel + 1, acc, c :: rest =>
    if sep ≠ [] ∧ listStartsWith sep (c :: rest) then
      acc.reverse :: splitAllAux sep fuel [] ((c :: rest).drop sep.length)
    else
      splitAllAux sep fuel (c :: acc) rest

/-- Python `s.split(sep)` for a nonempty separator `sep`. -/
def pySplit (s sep : String) : List String :=
  (splitAllAux sep.data (s.data.length + 1) [] s.data).map fun l => ⟨l⟩

/-- Python `s[n:]` (character slicing). -/
def pyDrop (s : String) (n : Nat) : String := ⟨s.data.drop n⟩

/-- Python `s.lstrip()`. -/
def lstrip (s : String) : String := ⟨s.data.dropWhile (·.isWhitespace)⟩

/-- Python tab removal on a line: replace each tab with the empty string. -/
def stripTabs (line : String) : String := ⟨line.data.filter (· ≠ '\t')⟩

/-- Python split-at-first-equals, index 1: everything after the first equals
sign; `none` models the `IndexError` raised when no equals sign is present. -/
def splitEqTail (line : String) : Option String :=
  match line.data.dropWhile (· ≠ '=') with
  | [] => none
  | _ :: rest => some ⟨rest⟩

/-- `line.split(m)[1].lstrip().split(sp)[0]` (split on a single space) — the voltage-extraction
expression used for the `Vin` and `Batt` markers in `parse_serial_data`. -/
def afterMarker (line m : String) : String :=
  (pySplit (lstrip ((pySplit line m).getD 1 "")) " ").headD ""

/-- `line[20:].split(sp)[0]` (split on a single space) — the state token of the state hook. -/
def stateToken (line : String) : String := (pySplit (pyDrop line 20) " ").headD ""

/-- `line[9:].split(sp)[0]` (split on a single space) — the event-code token of the event hook. -/
def eventCode (line : String) : String := (pySplit (pyDrop line 9) " ").headD ""

/-- `VALID_STATES` from the source. -/
def VALID_STATES : List String :=
  ["Boot", "Stopped", "Moving", "Sleeping", "Reserved", "PwrProtect", "Idling", "Towing",
   "Speeding"]

/-- `EVENTS` from the source (event-code → event-name table). -/
def EVENTS : List (String × String) :=
  [("EVENT_IGNITION_ON", "Ignition On"),
   ("IGNITION_OFF", "Ignition Off"),
   ("EVENT_VIRTUAL_IGN_ON", "Virtual Ignition On"),
   ("VIRTUAL_IGN_OFF", "Virtual Ignition Off"),
   ("DEVICE_REBOOT", "Device Reboot"),
   ("END_OF_TOW", "End of Tow")]

/-- Python dict lookup `EVENTS[code]`; `none` models the `KeyError`. -/
def lookupTable : List (String × String) → String → Option String
  | [], _ => none
  | (k, v) :: rest, code => if code = k then some v else lookupTable rest code

/-- Membership in a list of strings (Python `in` on a tuple of strings). -/
def memberStr (x : String) : List String → Bool
  | [] => false
  | y :: rest => if x = y then true else memberStr x rest

/-- The mutable module-level state touched by `listen_port` and
`parse_serial_data`: the `serial_data` queue, the `current_status`
fields and the `device_sleep` latch. -/
structure DeviceState where
  serial_data : List String
  state : String
  vin : String
  batt : String
  event : String
  device_sleep : Bool
deriving Repr, DecidableEq

/-- The tail of `listen_port` (lines 450–481 of the source): what happens
to the state when one framed `line` is pushed.  The `data_safe` busy-wait
is modelled as the flag being observed set (sequential case). -/
def listen_port_push (s : DeviceState) (line : String) : DeviceState :=
  if s.event = "Device Reboot" then
    { s with serial_data := s.serial_data ++ [line] }
  else
    let q := if s.serial_data.length > 500 then [] else s.serial_data
    let q := if q.length > 200 then q.drop 1 else q
    let s1 :=
      if s.device_sleep && !(strContainsChar line '.') then
        { s with state := "Stopped", device_sleep := false }
      else s
    { s1 with serial_data := q ++ [line] }

/-- The receive line-break configuration `line_break_rx = [nl, cr, crlf]`;
`crlf = 2` encodes the pending-CR flag carried across reads. -/
structure RxPolicy where
  nl : Nat
  cr : Nat
  crlf : Nat
deriving Repr, DecidableEq

/-- Result of feeding one byte to the framer: keep accumulating, or emit
a finished line; both carry the updated `line_break_rx` state. -/
inductive FrameStep where
  | cont (line : String) (rx : RxPolicy)
  | emit (line : String) (rx : RxPolicy)
deriving Repr, DecidableEq

/-- One iteration of the framing loop in `listen_port` (lines 397–418):
how one decoded character `c` transforms the accumulated `line` and the
`line_break_rx` flags. -/
def frameStep (rx : RxPolicy) (line : String) (c : Char) : FrameStep :=
  if c = '\n' then
    if rx.nl ≠ 0 ∧ line ≠ "" then .emit line rx
    else if rx.crlf = 2 ∧ line ≠ "" then .emit line { rx with crlf := 1 }
    else .cont line rx
  else if c = '\r' then
    if rx.cr ≠ 0 ∧ line ≠ "" then .emit line rx
    else if rx.crlf ≠ 0 ∧ line ≠ "" then .cont line { rx with crlf := 2 }
    else .cont line rx
  else .cont ⟨line.data ++ [c]⟩ rx

/-- Runs the framer over a sequence of received bytes, collecting every
emitted line; after an emit the accumulator restarts empty (a new
`listen_port` call).  Returns (emitted lines, leftover accumulation,
final `line_break_rx` state). -/
def frameList (rx : RxPolicy) (line : String) : List Char → List String × String × RxPolicy
  | [] => ([], line, rx)
  | c :: cs =>
    match frameStep rx line c with
    | .cont l r => frameList r l cs
    | .emit l r =>
      let rest := frameList r "" cs
      (l :: rest.1, rest.2.1, rest.2.2)

/-- Outcome of the bounded-retry reconnection loop in `listen_port`
(lines 427–444): whether it succeeded, how many `reconnect()` calls were
made, and how many `time.sleep(1)` waits were observed. -/
structure RetryResult where
  success : Bool
  attempts : Nat
  sleeps : Nat
deriving Repr, DecidableEq

/-- The retry loop of `listen_port`: `oracle n` is the result of the
`(n+1)`-th `reconnect()` call.  `ec` is `error_count`, which in every
reachable iteration also equals the number of calls already made and the
number of sleeps already performed.  `fuel ≥ 6 - ec` makes the recursion
structural; the fuel-0 case is unreachable from the entry point. -/
def reconnectLoop (oracle : Nat → Bool) : Nat → Nat → RetryResult
  | 0, ec => ⟨false, ec, ec⟩
  | fuel + 1, ec =>
    if oracle ec then ⟨true, ec + 1, ec⟩
    else if ec = 5 then ⟨false, ec + 1, ec⟩
    else reconnectLoop oracle fuel (ec + 1)

/-- Entry point of the retry loop (`error_count = 0`). -/
def listen_reconnect (oracle : Nat → Bool) : RetryResult := reconnectLoop oracle 6 0

/-- The state-hook branch of `parse_serial_data` (lines 565–579) applied
to one matching line.  The returned flag is `true` when the branch
raises `IndexError` (the line contains `Vin` but not `Batt`), which
breaks the scan; the assignments made before the raise are kept. -/
def stateHookBranch (s : DeviceState) (line : String) : DeviceState × Bool :=
  let temp := stateToken line
  if memberStr temp VALID_STATES then
    let s1 :=
      if (s.event = "Ignition On" ∨ s.event = "Virtual Ignition On") ∧ temp = "Moving" then
        { s with state := s.event }
      else if temp = "Sleeping" ∧ s.device_sleep = false then
        { s with state := "Stopped" }
      else
        { s with state := temp }
    if strContains line "Vin" then
      let s2 := { s1 with vin := afterMarker line "Vin" ++ " mV" }
      if strContains line "Batt" then
        ({ s2 with batt := afterMarker line "Batt" ++ " mV" }, false)
      else
        (s2, true)
    else (s1, false)
  else (s, false)

/-- The continuous-scan loop of `parse_serial_data` (lines 552–604): the
`for` over `serial_data` with the voltage, state and event hooks and the
sleep-sentinel check; mirrors the source's `break`/`clear` control flow,
including the `KeyError`/`IndexError` handlers that `break` without
clearing. -/
def scanLoop (target : String) (s : DeviceState) : List String → DeviceState
  | [] => s
  | line :: rest =>
    if strContains line target then
      if target = "Vin" then
        let s1 :=
          if strContains line "Batt" then
            { s with vin := afterMarker line "Vin" ++ " mV",
                     batt := afterMarker line "Batt" ++ " mV" }
          else s
        { s1 with serial_data := [] }
      else
        let p := if target = "sats:" then stateHookBranch s line else (s, false)
        if p.2 then p.1
        else if target = ">< >< ><" then
          match lookupTable EVENTS (eventCode line) with
          | some ev => { p.1 with event := ev, serial_data := [] }
          | none => p.1
        else if line = "..." then
          { p.1 with state := "Sleeping", device_sleep := true, serial_data := [] }
        else scanLoop target p.1 rest
    else if line = "..." then
      { s with state := "Sleeping", device_sleep := true, serial_data := [] }
    else scanLoop target s rest

/-- `parse_serial_data` for the continuous-scan targets (the `else`
branch of the source, guarded by a nonempty queue and `data_safe`). -/
def parse_serial_data (target : String) (s : DeviceState) : DeviceState :=
  if s.serial_data.length > 0 then scanLoop target s s.serial_data else s

/-- The 122 keys of `current_settings`, in dict order:
`settings[01]` … `settings[09]`, `settings[10]` … `settings[122]`. -/
def settingsKeys : List String :=
  (List.range 122).map fun i =>
    let n := i + 1
    "settings[" ++ (if n < 10 then "0" ++ toString n else toString n) ++ "]"

/-- The initial `current_settings` dictionary (every value empty). -/
def current_settings0 : List (String × String) := settingsKeys.map fun k => (k, "")

/-- The inner `for line in temp_sett` loop of the settings extraction
(lines 512–520) for one key: each matching line overwrites the value;
a matching line with no `'='` raises `IndexError`, reported as the
`true` flag (the handler `return`s from `parse_serial_data`). -/
def settingsKeyLoop (key val : String) : List String → String × Bool
  | [] => (val, false)
  | line :: rest =>
    if strContains (stripTabs line) key then
      match splitEqTail line with
      | some v => settingsKeyLoop key (lstrip v) rest
      | none => (val, true)
    else settingsKeyLoop key val rest

/-- The outer `for key in current_settings` loop of the settings
extraction over the snapshot `lines`: on an `IndexError` for some key
the whole function returns, leaving every later key untouched. -/
def settingsLoop (lines : List String) : List (String × String) → List (String × String)
  | [] => []
  | (key, val) :: rest =>
    let r := settingsKeyLoop key val lines
    if r.2 then (key, r.1) :: rest
    else (key, r.1) :: settingsLoop lines rest

/-- One poll iteration of `wait_for_reboot` (lines 626–640): whether the
`for line in serial_data` body returns on this iteration, given the
queue contents and the elapsed seconds since the wait started.  The
timeout comparison `time.time() - t_start > 210` sits inside the
per-line loop, exactly as in the source. -/
def rebootPollDone (queue : List String) (elapsed : Nat) : Bool :=
  queue.any fun line =>
    strContains line "devStateChange: curr=Boot" || decide (elapsed > 210)

/-- The connection-lifecycle state touched by `open_port`: the handle
(`some p` = a live `Serial` object actually bound to port `p`), the
recorded `working_com_port`, and the `serial_safe` liveness flag. -/
structure ConnState where
  serial_connection : Option String
  working_com_port : Option String
  serial_safe : Bool
deriving Repr, DecidableEq

/-- `open_port` (lines 269–304): `canOpen p` tells whether constructing
`Serial(port=p, ...)` succeeds.  Returns the new state and the Boolean
result.  When a connection is already open the function returns `True`
immediately, only setting `serial_safe` and `working_com_port`. -/
def open_port (canOpen : String → Bool) (s : ConnState) (com_port : String) :
    ConnState × Bool :=
  match s.serial_connection with
  | some _ => ({ s with serial_safe := true, working_com_port := some com_port }, true)
  | none =>
    if canOpen com_port then
      ({ serial_connection := some com_port, working_com_port := some com_port,
         serial_safe := true }, true)
    else (s, false)


/-- C1 counterexample: a transport whose first five reopen attempts fail and whose
sixth succeeds.  The loop makes a sixth `reconnect()` call and succeeds, so the
claim's "making at most 5 attempts total" (and hence "if all 5 attempts fail, the
framer reports a fatal transport failure") is false of the code: after the fifth
failure `error_count` is only 5 after the increment, so the loop retries once more. -/
theorem reconnect_five_attempts_cex :
    listen_reconnect (fun n => decide (n = 5)) = ⟨true, 6, 5⟩ := by decide

/-- C1 (amended): the retry loop makes at most 6 `reconnect()` attempts with a
one-second wait after each failed attempt except the last: if the first 4 attempts
fail and the 5th succeeds, it succeeds with exactly 5 attempts and 4 waits; if the
first 6 attempts fail, it reports a fatal transport failure (returns `False`)
after 6 attempts and 5 waits. -/
theorem reconnect_retry_bound :
    (∀ oracle : Nat → Bool, (listen_reconnect oracle).attempts ≤ 6)
    ∧ (∀ oracle : Nat → Bool, (∀ n, n < 4 → oracle n = false) → oracle 4 = true →
        listen_reconnect oracle = ⟨true, 5, 4⟩)
    ∧ (∀ oracle : Nat → Bool, (∀ n, n < 6 → oracle n = false) →
        listen_reconnect oracle = ⟨false, 6, 5⟩) := by
  refine ⟨?_, ?_, ?_⟩
  · intro oracle
    have key : ∀ fuel ec, (reconnectLoop oracle fuel ec).attempts ≤ ec + fuel := by
      intro fuel
      induction fuel with
      | zero => intro ec; simp [reconnectLoop]
      | succ n ih =>
        intro ec
        by_cases h : oracle ec = true
        · simp [reconnectLoop, h]
        · by_cases h5 : ec = 5
          · subst h5
            simp [reconnectLoop, h]
            omega
          · have := ih (ec + 1)
            simp [reconnectLoop, h, h5]
            omega
    have := key 6 0
    simpa [listen_reconnect] using this
  · intro oracle hf h4
    simp [listen_reconnect, reconnectLoop, hf 0 (by omega), hf 1 (by omega),
          hf 2 (by omega), hf 3 (by omega), h4]
  · intro oracle hf
    simp [listen_reconnect, reconnectLoop, hf 0 (by omega), hf 1 (by omega),
          hf 2 (by omega), hf 3 (by omega), hf 4 (by omega), hf 5 (by omega)]

/-- C1 witness: the amended theorem applied to a transport failing its first 4
attempts and succeeding from the 5th on. -/
theorem reconnect_retry_bound_witness :
    listen_reconnect (fun n => decide (4 ≤ n)) = ⟨true, 5, 4⟩ :=
  reconnect_retry_bound.2.1 (fun n => decide (4 ≤ n))
    (fun n hn => by simp only [decide_eq_false_iff_not]; omega)
    (by decide)

/-- C4: under the CRLF receive policy (`line_break_rx = [0,0,1]`) a CR byte and a
following LF byte arriving in separate reads produce exactly one emitted line
(not two and not zero) with both terminator bytes stripped: the CR sets the
pending-CR flag to 2 (carried across reads), and the next LF completes the pair,
terminates the line, and resets the flag to 1. -/
theorem crlf_split_reads (l : String) (h : l ≠ "") :
    frameStep ⟨0, 0, 1⟩ l '\r' = .cont l ⟨0, 0, 2⟩
    ∧ frameStep ⟨0, 0, 2⟩ l '\n' = .emit l ⟨0, 0, 1⟩
    ∧ frameList ⟨0, 0, 1⟩ l ['\r', '\n'] = ([l], "", ⟨0, 0, 1⟩) := by
  refine ⟨?_, ?_, ?_⟩ <;> simp [frameStep, frameList, h]

/-- C4 witness: the theorem at the accumulated line `"ab"`. -/
theorem crlf_split_reads_witness :
    frameStep ⟨0, 0, 1⟩ "ab" '\r' = .cont "ab" ⟨0, 0, 2⟩
    ∧ frameStep ⟨0, 0, 2⟩ "ab" '\n' = .emit "ab" ⟨0, 0, 1⟩
    ∧ frameList ⟨0, 0, 1⟩ "ab" ['\r', '\n'] = (["ab"], "", ⟨0, 0, 1⟩) :=
  crlf_split_reads "ab" (by decide)

/-- C10: if a serial connection is already open (actually bound to port `q`),
`open_port p` returns `True` for any `p` — even one the environment could not
open — without touching the handle: it sets `serial_safe` and overwrites
`working_com_port` with `p`, so the recorded port can differ from the port the
live connection is on. -/
theorem open_port_already_open (canOpen : String → Bool) (s : ConnState) (p q : String)
    (h : s.serial_connection = some q) :
    (open_port canOpen s p).2 = true
    ∧ (open_port canOpen s p).1.serial_connection = some q
    ∧ (open_port canOpen s p).1.working_com_port = some p
    ∧ (open_port canOpen s p).1.serial_safe = true := by
  simp [open_port, h]

/-- C10 witness: a handle live on `"COM3"`, `open_port "COM4"` with an environment
that cannot open any port: returns `True`, handle still on `"COM3"`, recorded
working port `"COM4"`. -/
theorem open_port_already_open_witness :
    (open_port (fun _ => false) ⟨some "COM3", some "COM3", false⟩ "COM4").2 = true
    ∧ (open_port (fun _ => false) ⟨some "COM3", some "COM3", false⟩ "COM4").1.serial_connection
        = some "COM3"
    ∧ (open_port (fun _ => false) ⟨some "COM3", some "COM3", false⟩ "COM4").1.working_com_port
        = some "COM4"
    ∧ (open_port (fun _ => false) ⟨some "COM3", some "COM3", false⟩ "COM4").1.serial_safe
        = true :=
  open_port_already_open (fun _ => false) ⟨some "COM3", some "COM3", false⟩ "COM4" "COM3" rfl

/-- A queue of exactly 500 lines, data-safe, outside the reboot window. -/
def q500state : DeviceState :=
  { serial_data := List.replicate 500 "x", state := "Stopped", vin := "", batt := "",
    event := "Ignition Off", device_sleep := false }

/-- C2 counterexample: a push onto a queue of length exactly 500 (data-safe, no
reboot in progress).  The length after the push would be 501 > 500, so the claim
requires the queue to be cleared and left as exactly the new line; the code's
overflow guard compares the length *before* the push against 500, so it instead
evicts one oldest entry and leaves 500 entries. -/
theorem queue_overflow_at_500_cex :
    q500state.serial_data.length + 1 > 500
    ∧ (listen_port_push q500state "y").serial_data.length = 500
    ∧ (listen_port_push q500state "y").serial_data ≠ ["y"] := by decide

/-- C2 (amended): for every push with the data-safe flag set and no reboot in
progress: if the length *before* the push exceeds 500, the overflow is reported
(not fatal), the queue is cleared and only the new line is pushed; otherwise if
the length exceeds 200, exactly one oldest entry (FIFO) is evicted before the new
line is appended; otherwise the line is appended unchanged.  In particular a push
onto a queue of length exactly 500 evicts one entry and leaves length 500. -/
theorem queue_push_policy (s : DeviceState) (line : String)
    (hreb : s.event ≠ "Device Reboot") :
    (s.serial_data.length > 500 → (listen_port_push s line).serial_data = [line])
    ∧ (s.serial_data.length ≤ 500 → s.serial_data.length > 200 →
        (listen_port_push s line).serial_data = s.serial_data.drop 1 ++ [line])
    ∧ (s.serial_data.length ≤ 200 →
        (listen_port_push s line).serial_data = s.serial_data ++ [line]) := by
  refine ⟨fun h => ?_, fun h1 h2 => ?_, fun h => ?_⟩
  · simp [listen_port_push, hreb, h]
  · simp [listen_port_push, hreb, Nat.not_lt.mpr h1, h2]
  · simp [listen_port_push, hreb, Nat.not_lt.mpr (by omega : s.serial_data.length ≤ 500),
          Nat.not_lt.mpr h]

/-- The initial module state: empty queue, initial `current_status` values. -/
def initState : DeviceState :=
  { serial_data := [], state := "Reading State...", vin := "Reading...",
    batt := "Reading...", event := "Waiting for\nEvent Status...",
    device_sleep := false }

/-- C2 witness: the amended theorem at the initial state (length 0 ≤ 200). -/
theorem queue_push_policy_witness :
    (listen_port_push initState "a").serial_data = ["a"] :=
  (queue_push_policy initState "a" (by decide)).2.2 (by decide)

/-- A state inside the device-reboot window (`current_status` event is
"Device Reboot"), with an empty queue. -/
def rebootWindowState : DeviceState :=
  { serial_data := [], state := "Stopped", vin := "", batt := "",
    event := "Device Reboot", device_sleep := false }

/-- C3 counterexample: 501 pushes performed during the device-reboot window
insert unconditionally (the eviction logic is skipped), growing the queue from
empty to length 501 > 500 — the claimed invariant fails for sequences that
include reboot-window pushes. -/
theorem queue_bound_reboot_cex :
    ((List.replicate 501 "x").foldl listen_port_push rebootWindowState).serial_data.length
      = 501 := by decide

/-- C3 (amended): outside the reboot window every push leaves the queue at length
at most 500 (so any sequence of non-reboot pushes maintains the bound, whatever
the starting length); during the reboot window insertion is unconditional and the
bound can be exceeded. -/
theorem queue_bound_invariant (s : DeviceState) (line : String)
    (hreb : s.event ≠ "Device Reboot") :
    (listen_port_push s line).serial_data.length ≤ 500 := by
  by_cases h1 : s.serial_data.length > 500
  · simp [listen_port_push, hreb, h1]
  · by_cases h2 : s.serial_data.length > 200
    · simp [listen_port_push, hreb, h1, h2]
      omega
    · simp [listen_port_push, hreb, h1, h2]
      omega

/-- C3 witness: the amended bound at the initial state. -/
theorem queue_bound_invariant_witness :
    (listen_port_push initState "a").serial_data.length ≤ 500 :=
  queue_bound_invariant initState "a" (by decide)

/-- C5: in the state-hook continuous scan over a queue holding one matching line,
when the token parsed from character offset 20 up to the next space is in
`VALID_STATES`: if the current event is "Ignition On" or "Virtual Ignition On"
and the token is "Moving", the reported state is the event name; if the token is
"Sleeping" and the sleep latch is unset, the reported state is "Stopped";
otherwise the token is reported verbatim. -/
theorem state_hook_tiebreak (s : DeviceState) (line : String)
    (hq : s.serial_data = [line])
    (hm : strContains line "sats:" = true)
    (hv : memberStr (stateToken line) VALID_STATES = true) :
    (parse_serial_data "sats:" s).state =
      (if (s.event = "Ignition On" ∨ s.event = "Virtual Ignition On")
          ∧ stateToken line = "Moving" then s.event
       else if stateToken line = "Sleeping" ∧ s.device_sleep = false then "Stopped"
       else stateToken line) := by
  have hline : line ≠ "..." := by
    intro e
    rw [e] at hm
    exact absurd hm (by decide)
  have hkey : (stateHookBranch s line).1.state =
      (if (s.event = "Ignition On" ∨ s.event = "Virtual Ignition On")
          ∧ stateToken line = "Moving" then s.event
       else if stateToken line = "Sleeping" ∧ s.device_sleep = false then "Stopped"
       else stateToken line) := by
    by_cases hvin : strContains line "Vin" = true
    · by_cases hbatt : strContains line "Batt" = true
      · simp [stateHookBranch, hv, hvin, hbatt, apply_ite (f := DeviceState.state)]
      · simp [stateHookBranch, hv, hvin, hbatt, apply_ite (f := DeviceState.state)]
    · simp [stateHookBranch, hv, hvin, apply_ite (f := DeviceState.state)]
  have hrun : parse_serial_data "sats:" s = (stateHookBranch s line).1 := by
    simp [parse_serial_data, hq, scanLoop, hm, hline]
  rw [hrun, hkey]

/-- A state with event "Ignition On" and a queued state-hook line whose character
offset 20 starts the token "Moving". -/
def ignitionScanState : DeviceState :=
  { serial_data := ["sats:xxxxxxxxxxxxxxxMoving rest"], state := "Stopped", vin := "",
    batt := "", event := "Ignition On", device_sleep := false }

/-- C5 witness: with current event "Ignition On" and scanned token "Moving" the
reported state is "Ignition On", not "Moving". -/
theorem state_hook_tiebreak_witness :
    (parse_serial_data "sats:" ignitionScanState).state = "Ignition On" := by
  rw [state_hook_tiebreak ignitionScanState "sats:xxxxxxxxxxxxxxxMoving rest" rfl
        (by decide) (by decide)]
  decide

/-- A state whose queue holds one event-hook line with an unknown event code at
offset 9. -/
def bogusEventState : DeviceState :=
  { serial_data := [">< >< >< BOGUS"], state := "Stopped", vin := "", batt := "",
    event := "Ignition Off", device_sleep := false }

/-- C6 counterexample: a queued line carrying the event marker with an unknown
code.  The `KeyError` is raised while evaluating the dict lookup, *before* the
`serial_data.clear()` statement runs, so the scan aborts with the queue left
intact — the claim's "the queue is cleared regardless of whether the code was
known or unknown" is false of the code. -/
theorem event_hook_clear_cex :
    strContains ">< >< >< BOGUS" ">< >< ><" = true
    ∧ lookupTable EVENTS (eventCode ">< >< >< BOGUS") = none
    ∧ (parse_serial_data ">< >< ><" bogusEventState).serial_data ≠ [] := by decide

/-- C6 (amended): in the event-hook continuous scan, when the first queued line
contains the event marker, the code token at fixed offset 9 is mapped through the
closed event-code table; on a known code the event is updated and the queue is
cleared; on an unknown code the failure is logged, the scan call aborts, and the
queue (and all other state) is left unchanged. -/
theorem event_hook_scan (s : DeviceState) (line : String) (rest : List String)
    (hq : s.serial_data = line :: rest)
    (hm : strContains line ">< >< ><" = true) :
    parse_serial_data ">< >< ><" s =
      (match lookupTable EVENTS (eventCode line) with
       | some ev => { s with event := ev, serial_data := [] }
       | none => s) := by
  cases h : lookupTable EVENTS (eventCode line) with
  | none => simp [parse_serial_data, hq, scanLoop, hm, h]
  | some ev => simp [parse_serial_data, hq, scanLoop, hm, h]

/-- A state whose queue holds one event-hook line with the known code
EVENT_IGNITION_ON at offset 9. -/
def knownEventState : DeviceState :=
  { serial_data := [">< >< >< EVENT_IGNITION_ON x"], state := "Stopped", vin := "",
    batt := "", event := "Ignition Off", device_sleep := false }

/-- C6 witness: the amended theorem on a known event code — the event becomes
"Ignition On" and the queue is cleared. -/
theorem event_hook_scan_witness :
    parse_serial_data ">< >< ><" knownEventState =
      { knownEventState with event := "Ignition On", serial_data := [] } := by
  rw [event_hook_scan knownEventState ">< >< >< EVENT_IGNITION_ON x" [] rfl (by decide)]
  decide

/-- C7 counterexample: the snapshot holds a line matching the key settings[01]
but lacking the equals separator, followed by a well-formed line for
settings[02].  The `IndexError` handler returns from the whole function, so
settings[02] is left at its prior (empty) value even though extracting it alone
from the well-formed line would succeed — the claim's "extraction of the
remaining fields still proceeds" is false of the code. -/
theorem settings_abort_cex :
    strContains (stripTabs "settings[01]") "settings[01]" = true
    ∧ splitEqTail "settings[01]" = none
    ∧ lookupTable (settingsLoop ["settings[01]", "settings[02]=X"] current_settings0)
        "settings[02]" = some ""
    ∧ lookupTable (settingsLoop ["settings[02]=X"] current_settings0)
        "settings[02]" = some "X" := by decide

/-- C7 (amended): a snapshot line that contains a targeted settings key but lacks
the equals separator is logged and aborts the *entire remaining* extraction (the
function returns): the targeted field keeps whatever value the lines processed so
far gave it, no exception escapes the extraction boundary, and every later field
keeps its prior value.  A well-formed settings[62]=1.2.3.4 line still extracts
normally. -/
theorem settings_extraction :
    lookupTable (settingsLoop ["settings[62]=1.2.3.4"] current_settings0) "settings[62]"
      = some "1.2.3.4"
    ∧ (∀ key val lines rest, (settingsKeyLoop key val lines).2 = true →
        settingsLoop lines ((key, val) :: rest)
          = (key, (settingsKeyLoop key val lines).1) :: rest)
    ∧ (∀ key val line rest, strContains (stripTabs line) key = true →
        splitEqTail line = none →
        settingsKeyLoop key val (line :: rest) = (val, true)) := by
  refine ⟨by decide, ?_, ?_⟩
  · intro key val lines rest h
    simp [settingsLoop, h]
  · intro key val line rest h1 h2
    simp [settingsKeyLoop, h1, h2]

/-- C7 witness: the abort clause of the amended theorem on the malformed
settings[01] line. -/
theorem settings_extraction_witness :
    settingsKeyLoop "settings[01]" "" ["settings[01]"] = ("", true) :=
  settings_extraction.2.2 "settings[01]" "" "settings[01]" [] (by decide) (by decide)

/-- A state with the sleep latch set, outside the reboot window. -/
def sleepLatchedState : DeviceState :=
  { serial_data := [], state := "Sleeping", vin := "", batt := "",
    event := "Ignition Off", device_sleep := true }

/-- C8 counterexample: with the sleep latch set, framing the non-sentinel line
"a.b" leaves the latch set and the state "Sleeping", because the code clears the
latch only for lines not containing a dot — the claim's "any subsequently framed
non-sentinel line clears the latch" is false of the code. -/
theorem sleep_latch_dot_cex :
    "a.b" ≠ "..."
    ∧ (listen_port_push sleepLatchedState "a.b").device_sleep = true
    ∧ (listen_port_push sleepLatchedState "a.b").state = "Sleeping" := by decide

/-- C8 (amended): (1) if the first queued line scanned by the continuous-scan
protocol equals the sentinel "...", and the sentinel does not contain the scan
target, the state is set to "Sleeping", the sleep latch is set, and the queue is
cleared; (2) any subsequently framed line that contains no dot character (which
excludes the sentinel itself) clears the latch and, outside the reboot window,
sets the state to "Stopped"; a framed line containing a dot leaves the latch
set. -/
theorem sleep_sentinel :
    (∀ (s : DeviceState) (target : String) (rest : List String),
        s.serial_data = "..." :: rest → strContains "..." target = false →
        parse_serial_data target s =
          { s with state := "Sleeping", device_sleep := true, serial_data := [] })
    ∧ (∀ (s : DeviceState) (line : String),
        s.event ≠ "Device Reboot" → s.device_sleep = true →
        strContainsChar line '.' = false →
        (listen_port_push s line).device_sleep = false
        ∧ (listen_port_push s line).state = "Stopped") := by
  constructor
  · intro s target rest hq hm
    simp [parse_serial_data, hq, scanLoop, hm]
  · intro s line hreb hds hdot
    simp [listen_port_push, hreb, hds, hdot]

/-- A state whose queue holds exactly the sleep sentinel. -/
def sentinelQueueState : DeviceState :=
  { serial_data := ["..."], state := "Stopped", vin := "", batt := "",
    event := "Ignition Off", device_sleep := false }

/-- The state after the sentinel scan: sleep latched, queue cleared. -/
def sleepAfterSentinelState : DeviceState :=
  { sentinelQueueState with state := "Sleeping", device_sleep := true, serial_data := [] }

/-- C8 witness: scanning the sentinel latches sleep and clears the queue, and a
following dot-free framed line clears the latch again. -/
theorem sleep_sentinel_witness :
    parse_serial_data "Vin" sentinelQueueState = sleepAfterSentinelState
    ∧ (listen_port_push sleepAfterSentinelState "ab").device_sleep = false :=
  ⟨sleep_sentinel.1 sentinelQueueState "Vin" [] rfl (by decide),
   (sleep_sentinel.2 sleepAfterSentinelState "ab" (by decide) rfl (by decide)).1⟩

/-- C9 (code bug): one poll iteration of `wait_for_reboot` completes only when the
body of the per-line loop runs.  With an empty queue no iteration ever completes,
no matter how much time has elapsed — the 210-second timeout comparison sits
inside `for line in serial_data` and is never evaluated, so the wait never
returns when no line arrives, contradicting the claim (and the code's own
comment, "Waits for console message or 210 seconds").  With at least one queued
line, even a non-matching one, the timeout works as claimed. -/
theorem wait_for_reboot_empty_queue :
    (∀ elapsed : Nat, rebootPollDone [] elapsed = false)
    ∧ rebootPollDone ["noise"] 211 = true
    ∧ rebootPollDone ["noise"] 210 = false
    ∧ rebootPollDone ["xx devStateChange: curr=Boot yy"] 0 = true := by
  exact ⟨fun _ => rfl, by decide, by decide, by decide⟩
